import Mathlib

/-!
Verification of the lightkbdd daemon (src/main.rs): a keyboard-backlight
idle dimmer.  The program's floating-point values (`f32`) are modelled as
rationals, monotonic instants (`Instant`) as rationals measured in
milliseconds, and durations (`Duration`) as rationals in milliseconds
(the code only ever forms the unit-free ratio `elapsed / duration`, so the
choice of unit is immaterial).  Fallible I/O (file writes, raw reads) is
modelled by passing the outcome of the underlying operation as an explicit
argument.
-/

/-- `clamp01` from the source: `x.clamp(0.0, 1.0)`. -/
def clamp01 (x : ℚ) : ℚ := max 0 (min x 1)

/-- `lerp` from the source: `a + (b - a) * t`. -/
def lerp (a b t : ℚ) : ℚ := a + (b - a) * t

/-- `Fade` from the source: one in-flight animation.  `start_at` is an
instant in ms; `duration` a span in ms. -/
structure Fade where
  start : ℚ
  target : ℚ
  start_at : ℚ
  duration : ℚ
deriving DecidableEq

/-- `Fade::value_at` from the source.
`elapsed = now.saturating_duration_since(start_at)` (a `Duration` is
non-negative, hence the `max 0`); `t = (elapsed / duration).clamp(0,1)`;
result `lerp(start, target, t)`. -/
def Fade.value_at (f : Fade) (now : ℚ) : ℚ :=
  let elapsed := max 0 (now - f.start_at)
  let t := clamp01 (elapsed / f.duration)
  lerp f.start f.target t

/-- `Fade::done` from the source:
`now.saturating_duration_since(start_at) >= duration`. -/
def Fade.done (f : Fade) (now : ℚ) : Bool :=
  f.duration ≤ max 0 (now - f.start_at)

/-- `Fader` from the source: current materialized value, the optional
in-flight fade, and the two configured durations. -/
structure Fader where
  current : ℚ
  fade : Option Fade
  fade_in : ℚ
  fade_out : ℚ
deriving DecidableEq

/-- `Fader::new` from the source. -/
def Fader.new (current fade_in fade_out : ℚ) : Fader :=
  { current := clamp01 current, fade := none, fade_in := fade_in, fade_out := fade_out }

/-- `Fader::value` from the source.  Returns the value together with the
updated state (`&mut self` in Rust): if a fade is active, `current` is set
to `clamp01(fade.value_at(now))`; if the fade is done, `current` is then
overwritten with the fade's exact target and the fade is cleared. -/
def Fader.value (f : Fader) (now : ℚ) : ℚ × Fader :=
  match f.fade with
  | none => (f.current, f)
  | some fd =>
    if fd.done now then (fd.target, { f with current := fd.target, fade := none })
    else
      let v := clamp01 (fd.value_at now)
      (v, { f with current := v })

/-- `Fader::set_target` from the source: clamp the target, resolve the
current value at `now` (mutating, via `value`), snap when within the
1e-4 epsilon, otherwise install a new fade whose duration is `fade_in`
when brightening and `fade_out` when dimming. -/
def Fader.set_target (f : Fader) (now t0 : ℚ) : Fader :=
  let t := clamp01 t0
  let cur := (f.value now).1
  let f1 := (f.value now).2
  if |t - cur| < 1 / 10000 then
    { f1 with current := t, fade := none }
  else
    let dur := if cur < t then f1.fade_in else f1.fade_out
    { f1 with fade := some { start := cur, target := t, start_at := now, duration := dur } }

/-- `Fader::is_fading` from the source. -/
def Fader.is_fading (f : Fader) : Bool := f.fade.isSome

/-- `Backlight` from the source, restricted to its pure state: the maximum
raw intensity and the last raw value recorded by `write_raw`.  The sysfs
path is I/O plumbing with no bearing on the modelled behaviour. -/
structure Backlight where
  max_raw : ℕ
  last_raw_written : Option ℕ
deriving DecidableEq

/-- `Backlight::raw_to_f32` from the source: `0` when `max_raw == 0`, else
`clamp01(raw / max_raw)`. -/
def Backlight.raw_to_f32 (b : Backlight) (raw : ℕ) : ℚ :=
  if b.max_raw = 0 then 0 else clamp01 ((raw : ℚ) / (b.max_raw : ℚ))

/-- `Backlight::f32_to_raw` from the source:
`(clamp01(v) * max_raw).round() as u32`.  `f32::round` rounds half away
from zero; the operand is non-negative, so it equals `⌊x + 1/2⌋`, and the
`as u32` cast of that non-negative value is `Int.toNat`. -/
def Backlight.f32_to_raw (b : Backlight) (v : ℚ) : ℕ :=
  (⌊clamp01 v * (b.max_raw : ℚ) + 1 / 2⌋).toNat

/-- `Backlight::write_raw` from the source.  The outcome of the underlying
`std::fs::write` is the explicit argument `writeOk`.  Returns the
`io::Result`, the updated state, and whether an underlying write was
performed.  Note the source sets `last_raw_written` BEFORE attempting the
write. -/
def Backlight.write_raw (b : Backlight) (raw : ℕ) (writeOk : Bool) :
    Except Unit Unit × Backlight × Bool :=
  if b.last_raw_written = some raw then
    (Except.ok (), b, false)
  else
    let b1 := { b with last_raw_written := some raw }
    ((if writeOk then Except.ok () else Except.error ()), b1, true)

/-- `ms_to_timeout` from the source, as the millisecond count wrapped by
the returned `PollTimeout` (whose underlying representation uses `-1` for
the block-forever value `PollTimeout::NONE`; `PollTimeout::from(u16)` is
always non-negative): `0` when `ms <= 0`, else `min ms 65535`. -/
def ms_to_timeout (ms : ℤ) : ℤ :=
  if ms ≤ 0 then 0 else min ms 65535

/-- `MIN_FADE_TICK_MS` from the source. -/
def MIN_FADE_TICK_MS : ℚ := 16

/-- The next-wake computation of the main loop (src/main.rs lines
296-303): start from the idle deadline; if a fade is active take the min
with `now + MIN_FADE_TICK_MS`; otherwise, if dimmed, replace it with
`now + 60` seconds. -/
def next_wake_of (now idle_deadline : ℚ) (fading dimmed : Bool) : ℚ :=
  if fading then min idle_deadline (now + MIN_FADE_TICK_MS)
  else if dimmed then now + 60 * 1000
  else idle_deadline

/-- One ready event reported by the readiness wait: its registration index
and whether its flags contain `EPOLLERR` or `EPOLLHUP`. -/
structure EpEvent where
  idx : ℕ
  errHup : Bool
deriving DecidableEq

/-- The mutable state of the main loop that the dim/undim logic touches:
`last_activity`, `saved_raw`, `is_dimmed` and the fader. -/
structure LoopState where
  last_activity : ℚ
  saved_raw : Option ℕ
  is_dimmed : Bool
  fader : Fader
deriving DecidableEq

/-- The event-handling and state-transition part of one main-loop
iteration (src/main.rs lines 316-367), between the readiness wait and the
final brightness write.  `events` are the `n` ready events; draining a
ready source only reads bytes into a scratch buffer and possibly
deregisters the source from the epoll set, neither of which touches the
modelled state, so drains need no further modelling here.
`read_raw_result` is the outcome of the `backlight.read_raw()` call made
on the dim transition (`none` for an I/O error, handled by
`.unwrap_or(initial_raw)`). -/
def iterate (idle_ms : ℕ) (initial_raw : ℕ) (b : Backlight) (read_raw_result : Option ℕ)
    (st : LoopState) (now : ℚ) (events : List EpEvent) : LoopState :=
  if events ≠ [] then
    let st1 := { st with last_activity := now }
    if st1.is_dimmed then
      let restore_raw := st1.saved_raw.getD initial_raw
      { st1 with
        saved_raw := none
        is_dimmed := false
        fader := st1.fader.set_target now (b.raw_to_f32 restore_raw) }
    else st1
  else
    let idle_deadline := st.last_activity + (idle_ms : ℚ)
    if st.is_dimmed = false ∧ idle_deadline ≤ now then
      let st1 :=
        if st.saved_raw = none then
          { st with saved_raw := some (read_raw_result.getD initial_raw) }
        else st
      { st1 with is_dimmed := true, fader := st1.fader.set_target now 0 }
    else st

/-- The fader construction in `main` (src/main.rs lines 243-247): the
configured millisecond durations (`u64`s) pass through `.max(1)` before
becoming `Duration`s handed to `Fader::new`. -/
def main_fader (initial : ℚ) (fade_in_ms fade_out_ms : ℕ) : Fader :=
  Fader.new initial ((max fade_in_ms 1 : ℕ) : ℚ) ((max fade_out_ms 1 : ℕ) : ℚ)

/-- The tail of one main-loop iteration (src/main.rs lines 369-371): query
the fader, convert to raw, write through the backlight. -/
def loop_body (idle_ms : ℕ) (initial_raw : ℕ) (b : Backlight) (read_raw_result : Option ℕ)
    (writeOk : Bool) (st : LoopState) (now : ℚ) (events : List EpEvent) :
    LoopState × Backlight × Except Unit Unit :=
  let st1 := iterate idle_ms initial_raw b read_raw_result st now events
  let p := st1.fader.value now
  let raw := b.f32_to_raw p.1
  let w := b.write_raw raw writeOk
  ({ st1 with fader := p.2 }, w.2.1, w.1)

/-! ## Shared lemmas -/

lemma clamp01_nonneg (x : ℚ) : 0 ≤ clamp01 x := le_max_left 0 _

lemma clamp01_le_one (x : ℚ) : clamp01 x ≤ 1 := by
  unfold clamp01
  rcases le_total x 1 with h | h
  · simp [min_eq_left h, h]
  · simp [min_eq_right h]

lemma clamp01_of_mem {x : ℚ} (h0 : 0 ≤ x) (h1 : x ≤ 1) : clamp01 x = x := by
  unfold clamp01
  rw [min_eq_left h1, max_eq_right h0]

lemma clamp01_mono {a b : ℚ} (h : a ≤ b) : clamp01 a ≤ clamp01 b := by
  unfold clamp01
  exact max_le_max le_rfl (min_le_min h le_rfl)

lemma lerp_zero (a b : ℚ) : lerp a b 0 = a := by simp [lerp]

lemma lerp_one (a b : ℚ) : lerp a b 1 = b := by simp [lerp]

/-- Shared: `f32_to_raw` never exceeds `max_raw`. -/
lemma f32_to_raw_le (b : Backlight) (v : ℚ) : b.f32_to_raw v ≤ b.max_raw := by
  unfold Backlight.f32_to_raw
  rw [Int.toNat_le]
  have hc1 : clamp01 v ≤ 1 := clamp01_le_one v
  have hc0 : (0 : ℚ) ≤ clamp01 v := clamp01_nonneg v
  have hM : (0 : ℚ) ≤ (b.max_raw : ℚ) := Nat.cast_nonneg _
  have hmul : clamp01 v * (b.max_raw : ℚ) ≤ (b.max_raw : ℚ) := by nlinarith
  have : clamp01 v * (b.max_raw : ℚ) + 1 / 2 < (b.max_raw : ℚ) + 1 := by linarith
  have hlt : ⌊clamp01 v * (b.max_raw : ℚ) + 1 / 2⌋ < (b.max_raw : ℤ) + 1 := by
    apply Int.floor_lt.mpr
    push_cast
    linarith
  omega

/-- C10: for every `max_raw` and every input `v` (including values outside
`[0,1]`), `f32_to_raw v` is at most `max_raw`, so the loop never writes a
raw brightness above the device's maximum intensity. -/
theorem C10_f32_to_raw_le_max (b : Backlight) (v : ℚ) :
    b.f32_to_raw v ≤ b.max_raw :=
  f32_to_raw_le b v

/-- C9: the readiness-wait timeout equals the remaining time clamped to
`[0, 65535]` ms; any remaining time `≤ 0` yields the zero timeout (poll
and return immediately), and the result is never the block-forever
sentinel `-1` (`PollTimeout::NONE`). -/
theorem C9_ms_to_timeout_clamps (ms : ℤ) :
    ms_to_timeout ms = min (max ms 0) 65535 ∧
    (ms ≤ 0 → ms_to_timeout ms = 0) ∧
    0 ≤ ms_to_timeout ms ∧ ms_to_timeout ms ≤ 65535 ∧ ms_to_timeout ms ≠ -1 := by
  unfold ms_to_timeout
  by_cases h : ms ≤ 0
  · simp [h]
  · simp [h]
    omega

/-- Witness for C9 at `ms = -5`. -/
theorem C9_witness : (-5 : ℤ) ≤ 0 ∧ ms_to_timeout (-5) = 0 :=
  ⟨by decide, (C9_ms_to_timeout_clamps (-5)).2.1 (by decide)⟩

/-- C4 counterexample: with `now = 10000`, `idle_deadline = 10000`
(e.g. `last_activity = 0`, `idle_ms = 10000`), dimmed and not fading, the
code computes `now + 60` s `= 70000`, not the idle deadline `10000` the
claim requires. -/
theorem C4_counterexample :
    next_wake_of 10000 10000 false true = 70000 ∧ (70000 : ℚ) ≠ 10000 := by
  constructor
  · norm_num [next_wake_of, MIN_FADE_TICK_MS]
  · norm_num

/-- C4 amended: the next wake deadline is `min(idle_deadline, now + 16ms)`
when a fade is active; the idle deadline itself when neither fading nor
dimmed; and `now + 60` seconds (overriding the idle deadline) when dimmed
and not fading. -/
theorem C4_next_wake_cases (now idle_deadline : ℚ) (fading dimmed : Bool) :
    MIN_FADE_TICK_MS = 16 ∧
    (fading = true →
      next_wake_of now idle_deadline fading dimmed = min idle_deadline (now + 16)) ∧
    (fading = false → dimmed = false →
      next_wake_of now idle_deadline fading dimmed = idle_deadline) ∧
    (fading = false → dimmed = true →
      next_wake_of now idle_deadline fading dimmed = now + 60000) := by
  unfold next_wake_of MIN_FADE_TICK_MS
  rcases fading <;> rcases dimmed <;> norm_num

/-- Witness for C4 at `now = 0`, `idle_deadline = 100`, fading. -/
theorem C4_witness : next_wake_of 0 100 true false = min 100 (0 + 16) :=
  (C4_next_wake_cases 0 100 true false).2.1 rfl

/-- C6 counterexample: with no previous write recorded, `write_raw 5`
whose underlying write fails returns the error, yet `last_raw_written`
becomes `some 5` (it is set before the write is attempted), contradicting
"if the write fails, the recorded last-written value is unchanged". -/
theorem C6_counterexample :
    (Backlight.write_raw { max_raw := 255, last_raw_written := none } 5 false).1
        = Except.error () ∧
    (Backlight.write_raw { max_raw := 255, last_raw_written := none } 5 false).2.1.last_raw_written
        = some 5 ∧
    some 5 ≠ (none : Option ℕ) := by
  refine ⟨rfl, rfl, by simp⟩

/-- C6 amended: `write_raw v` performs no underlying write and returns
success when `v` equals the last recorded value; otherwise it records `v`
as `last_raw_written` BEFORE attempting the write, so the recorded value
becomes `v` regardless of whether the write succeeds, and the write's
outcome is returned. -/
theorem C6_write_raw_spec (b : Backlight) (raw : ℕ) (ok : Bool) :
    (b.last_raw_written = some raw →
      b.write_raw raw ok = (Except.ok (), b, false)) ∧
    (b.last_raw_written ≠ some raw →
      (b.write_raw raw ok).2.2 = true ∧
      (b.write_raw raw ok).2.1 = { b with last_raw_written := some raw } ∧
      (b.write_raw raw ok).1 = (if ok then Except.ok () else Except.error ())) := by
  unfold Backlight.write_raw
  by_cases h : b.last_raw_written = some raw <;> simp [h]

/-- Witness for C6: dedup case at a concrete backlight. -/
theorem C6_witness :
    ({ max_raw := 255, last_raw_written := some 7 } : Backlight).last_raw_written = some 7 ∧
    Backlight.write_raw { max_raw := 255, last_raw_written := some 7 } 7 true
      = (Except.ok (), { max_raw := 255, last_raw_written := some 7 }, false) :=
  ⟨rfl, (C6_write_raw_spec { max_raw := 255, last_raw_written := some 7 } 7 true).1 rfl⟩


/-- C3 counterexample: a wake whose single ready event carries only
error/hangup flags (so nothing is drained) still updates `last_activity`
to `now = 5` (from `0`): the code counts any `n != 0` wake as activity. -/
theorem C3_counterexample :
    (iterate 10000 128 { max_raw := 255, last_raw_written := none } (some 128)
        { last_activity := 0, saved_raw := none, is_dimmed := false,
          fader := Fader.new 0 250 800 }
        5 [{ idx := 0, errHup := true }]).last_activity = 5 ∧
    List.all [({ idx := 0, errHup := true } : EpEvent)] (fun e => e.errHup) = true ∧
    (5 : ℚ) ≠ 0 := by
  refine ⟨?_, rfl, by norm_num⟩
  norm_num [iterate]

/-- C3 amended: `last_activity` is updated to `now` and the
`Dimmed → Active` transition is run exactly when the readiness wait
reported at least one ready event (`n != 0`), regardless of whether any
source was successfully drained — a wake whose ready events are only
error/hangup conditions still counts as activity. -/
theorem C3_activity_iff_events (idle_ms initial_raw : ℕ) (b : Backlight)
    (rr : Option ℕ) (st : LoopState) (now : ℚ) (events : List EpEvent) :
    (events ≠ [] →
      (iterate idle_ms initial_raw b rr st now events).last_activity = now ∧
      (iterate idle_ms initial_raw b rr st now events).is_dimmed = false) ∧
    (events = [] →
      (iterate idle_ms initial_raw b rr st now events).last_activity = st.last_activity ∧
      (st.is_dimmed = true → iterate idle_ms initial_raw b rr st now events = st)) := by
  unfold iterate
  by_cases h : events = []
  · refine ⟨by simp [h], ?_⟩
    intro _
    by_cases hc : st.is_dimmed = false ∧ st.last_activity + (idle_ms : ℚ) ≤ now
    · refine ⟨?_, ?_⟩
      · by_cases hrw : st.saved_raw = none <;> simp [h, hc, hrw]
      · intro hd
        exact absurd hc.1 (by simp [hd])
    · simp [h, hc]
  · refine ⟨?_, by simp [h]⟩
    intro _
    by_cases hd : st.is_dimmed <;> simp [h, hd]

/-- Witness for C3 amended: a non-empty event list updates `last_activity`. -/
theorem C3_witness :
    (iterate 10000 128 { max_raw := 255, last_raw_written := none } (some 128)
        { last_activity := 0, saved_raw := none, is_dimmed := false,
          fader := Fader.new 0 250 800 }
        7 [{ idx := 0, errHup := false }]).last_activity = 7 ∧
    (iterate 10000 128 { max_raw := 255, last_raw_written := none } (some 128)
        { last_activity := 0, saved_raw := none, is_dimmed := false,
          fader := Fader.new 0 250 800 }
        7 [{ idx := 0, errHup := false }]).is_dimmed = false :=
  (C3_activity_iff_events 10000 128 { max_raw := 255, last_raw_written := none } (some 128)
      { last_activity := 0, saved_raw := none, is_dimmed := false,
        fader := Fader.new 0 250 800 }
      7 [{ idx := 0, errHup := false }]).1 (by simp)

/-- C5: `saved_raw` is populated exactly on the `Active → Dimmed`
transition (and an already-present value is not overwritten), cleared
exactly on the `Dimmed → Active` transition — whose restore target is the
normalized form of `saved_raw`, with the device's initial raw value as
fallback — and left untouched by every other iteration. -/
theorem C5_saved_raw_lifecycle (idle_ms initial_raw : ℕ) (b : Backlight)
    (rr : Option ℕ) (st : LoopState) (now : ℚ) (events : List EpEvent) :
    (st.is_dimmed = true → events ≠ [] →
      (iterate idle_ms initial_raw b rr st now events).saved_raw = none ∧
      (iterate idle_ms initial_raw b rr st now events).is_dimmed = false ∧
      (iterate idle_ms initial_raw b rr st now events).fader
        = st.fader.set_target now (b.raw_to_f32 (st.saved_raw.getD initial_raw))) ∧
    (st.is_dimmed = false → events = [] → st.last_activity + (idle_ms : ℚ) ≤ now →
      (iterate idle_ms initial_raw b rr st now events).is_dimmed = true ∧
      (iterate idle_ms initial_raw b rr st now events).saved_raw
        = some (st.saved_raw.getD (rr.getD initial_raw))) ∧
    (st.is_dimmed = false → events ≠ [] →
      (iterate idle_ms initial_raw b rr st now events).saved_raw = st.saved_raw ∧
      (iterate idle_ms initial_raw b rr st now events).is_dimmed = false) ∧
    (events = [] → ¬(st.is_dimmed = false ∧ st.last_activity + (idle_ms : ℚ) ≤ now) →
      iterate idle_ms initial_raw b rr st now events = st) := by
  unfold iterate
  refine ⟨?_, ?_, ?_, ?_⟩
  · intro hd h
    simp [h, hd]
  · intro hd h hidle
    have hc : st.is_dimmed = false ∧ st.last_activity + (idle_ms : ℚ) ≤ now := ⟨hd, hidle⟩
    by_cases hrw : st.saved_raw = none
    · simp [h, hc, hrw]
    · rcases hx : st.saved_raw with _ | x
      · exact absurd hx hrw
      · simp [h, hc, hx]
  · intro hd h
    simp [h, hd]
  · intro h hc
    simp [h, hc]

/-- Witness for C5: a restore transition at a concrete dimmed state with
`saved_raw = some 42`. -/
theorem C5_witness :
    (iterate 10000 128 { max_raw := 255, last_raw_written := none } (some 128)
        { last_activity := 0, saved_raw := some 42, is_dimmed := true,
          fader := Fader.new 0 250 800 }
        5 [{ idx := 0, errHup := false }]).saved_raw = none ∧
    (iterate 10000 128 { max_raw := 255, last_raw_written := none } (some 128)
        { last_activity := 0, saved_raw := some 42, is_dimmed := true,
          fader := Fader.new 0 250 800 }
        5 [{ idx := 0, errHup := false }]).is_dimmed = false ∧
    (iterate 10000 128 { max_raw := 255, last_raw_written := none } (some 128)
        { last_activity := 0, saved_raw := some 42, is_dimmed := true,
          fader := Fader.new 0 250 800 }
        5 [{ idx := 0, errHup := false }]).fader
      = Fader.set_target (Fader.new 0 250 800) 5
          (Backlight.raw_to_f32 { max_raw := 255, last_raw_written := none }
            ((some 42 : Option ℕ).getD 128)) :=
  (C5_saved_raw_lifecycle 10000 128 { max_raw := 255, last_raw_written := none } (some 128)
      { last_activity := 0, saved_raw := some 42, is_dimmed := true,
        fader := Fader.new 0 250 800 }
      5 [{ idx := 0, errHup := false }]).1 rfl (by simp)

/-- Shared: `Fader::value` leaves `current` equal to the returned value. -/
lemma value_snd_current (f : Fader) (now : ℚ) : (f.value now).2.current = (f.value now).1 := by
  unfold Fader.value
  rcases f.fade with _ | fd
  · rfl
  · by_cases h : fd.done now <;> simp [h]

/-- Shared: `Fader::value` does not change `fade_in`. -/
lemma value_snd_fade_in (f : Fader) (now : ℚ) : (f.value now).2.fade_in = f.fade_in := by
  unfold Fader.value
  rcases f.fade with _ | fd
  · rfl
  · by_cases h : fd.done now <;> simp [h]

/-- Shared: `Fader::value` does not change `fade_out`. -/
lemma value_snd_fade_out (f : Fader) (now : ℚ) : (f.value now).2.fade_out = f.fade_out := by
  unfold Fader.value
  rcases f.fade with _ | fd
  · rfl
  · by_cases h : fd.done now <;> simp [h]

/-- C1: `set_target(now, t)` first resolves the current value at `now`;
when the clamped target is within the 1e-4 epsilon of that resolved value
it clears any in-flight fade and sets `current` to the target, and
otherwise it installs a new `Fade` whose start is the resolved current
value, whose target is the clamped target, whose start time is `now`, and
whose duration is `fade_in` when the target is greater than the resolved
value and `fade_out` when it is lesser. -/
theorem C1_set_target_spec (f : Fader) (now t0 : ℚ) :
    (|clamp01 t0 - (f.value now).1| < 1 / 10000 →
      (f.set_target now t0).fade = none ∧
      (f.set_target now t0).current = clamp01 t0) ∧
    (1 / 10000 ≤ |clamp01 t0 - (f.value now).1| →
      (f.set_target now t0).fade = some
        { start := (f.value now).1, target := clamp01 t0, start_at := now,
          duration := if (f.value now).1 < clamp01 t0 then f.fade_in else f.fade_out } ∧
      (f.set_target now t0).current = (f.value now).1) := by
  unfold Fader.set_target
  constructor
  · intro h
    rw [if_pos h]
    exact ⟨rfl, rfl⟩
  · intro h
    have h2 : ¬ |clamp01 t0 - (f.value now).1| < 1 / 10000 := not_lt.mpr h
    rw [if_neg h2]
    refine ⟨?_, value_snd_current f now⟩
    rw [value_snd_fade_in, value_snd_fade_out]

/-- Shared: `clamp01` of a value `≥ 1` is `1`. -/
lemma clamp01_of_one_le {x : ℚ} (h : 1 ≤ x) : clamp01 x = 1 := by
  unfold clamp01
  rw [min_eq_right h]
  norm_num

/-- Shared: once `done`, `value_at` equals the target (positive duration). -/
lemma value_at_eq_target_of_done (fd : Fade) (hdur : 0 < fd.duration) {now : ℚ}
    (h : fd.duration ≤ max 0 (now - fd.start_at)) : fd.value_at now = fd.target := by
  unfold Fade.value_at
  have h1 : (1 : ℚ) ≤ max 0 (now - fd.start_at) / fd.duration := (one_le_div hdur).mpr h
  show lerp fd.start fd.target (clamp01 (max 0 (now - fd.start_at) / fd.duration)) = fd.target
  rw [clamp01_of_one_le h1, lerp_one]

/-- Shared: with an active fade of positive duration and a target in
`[0,1]`, the value returned by `Fader::value` is `clamp01 (value_at now)`. -/
lemma value_fst_eq_clamp (f : Fader) (fd : Fade) (hf : f.fade = some fd)
    (hdur : 0 < fd.duration) (ht0 : 0 ≤ fd.target) (ht1 : fd.target ≤ 1) (now : ℚ) :
    (f.value now).1 = clamp01 (fd.value_at now) := by
  unfold Fader.value
  rw [hf]
  by_cases h : fd.done now
  · simp only [h, if_true]
    have hd : fd.duration ≤ max 0 (now - fd.start_at) := by
      have := of_decide_eq_true h
      exact this
    rw [value_at_eq_target_of_done fd hdur hd, clamp01_of_mem ht0 ht1]
  · simp [h]

/-- Shared: `value_at` is monotone in `now`, in the direction of the fade. -/
lemma value_at_mono (fd : Fade) (hdur : 0 < fd.duration) {n1 n2 : ℚ} (h : n1 ≤ n2) :
    (fd.start ≤ fd.target → fd.value_at n1 ≤ fd.value_at n2) ∧
    (fd.target ≤ fd.start → fd.value_at n2 ≤ fd.value_at n1) := by
  unfold Fade.value_at
  have he : max 0 (n1 - fd.start_at) ≤ max 0 (n2 - fd.start_at) :=
    max_le_max le_rfl (by linarith)
  have ht : clamp01 (max 0 (n1 - fd.start_at) / fd.duration)
      ≤ clamp01 (max 0 (n2 - fd.start_at) / fd.duration) :=
    clamp01_mono ((div_le_div_iff_of_pos_right hdur).mpr he)
  constructor
  · intro hab
    unfold lerp
    have := mul_le_mul_of_nonneg_left ht (sub_nonneg.mpr hab)
    linarith
  · intro hba
    unfold lerp
    have := mul_le_mul_of_nonneg_left ht (sub_nonneg.mpr (by linarith : (0:ℚ) ≤ fd.start - fd.target))
    nlinarith

/-- C2: for every active fade with positive duration (and endpoints in
`[0,1]`, as every fade the fader builds has), `value` at the fade's start
time is exactly `start`; `value` at `start_at + duration` or later is
exactly `target` and leaves the fade inactive; and between those times
`value` is monotonic in time in the direction from `start` to `target`. -/
theorem C2_fade_endpoints_monotone (f : Fader) (fd : Fade)
    (hf : f.fade = some fd) (hdur : 0 < fd.duration)
    (hs0 : 0 ≤ fd.start) (hs1 : fd.start ≤ 1)
    (ht0 : 0 ≤ fd.target) (ht1 : fd.target ≤ 1) :
    (f.value fd.start_at).1 = fd.start ∧
    (∀ now, fd.start_at + fd.duration ≤ now →
      (f.value now).1 = fd.target ∧ (f.value now).2.fade = none) ∧
    (∀ n1 n2, fd.start_at ≤ n1 → n1 ≤ n2 →
      (fd.start ≤ fd.target → (f.value n1).1 ≤ (f.value n2).1) ∧
      (fd.target ≤ fd.start → (f.value n2).1 ≤ (f.value n1).1)) := by
  refine ⟨?_, ?_, ?_⟩
  · rw [value_fst_eq_clamp f fd hf hdur ht0 ht1]
    have hv : fd.value_at fd.start_at = fd.start := by
      show lerp fd.start fd.target (clamp01 (max 0 (fd.start_at - fd.start_at) / fd.duration))
        = fd.start
      rw [sub_self]
      norm_num [clamp01, lerp]
    rw [hv, clamp01_of_mem hs0 hs1]
  · intro now hnow
    have hd : fd.done now = true := by
      unfold Fade.done
      apply decide_eq_true
      have hle : fd.duration ≤ now - fd.start_at := by linarith
      exact le_max_of_le_right hle
    unfold Fader.value
    rw [hf]
    simp [hd]
  · intro n1 n2 _ h12
    rw [value_fst_eq_clamp f fd hf hdur ht0 ht1, value_fst_eq_clamp f fd hf hdur ht0 ht1]
    have hm := value_at_mono fd hdur h12
    exact ⟨fun hab => clamp01_mono (hm.1 hab), fun hba => clamp01_mono (hm.2 hba)⟩

/-- C7: the configured fade durations are coerced by `.max(1)` to at
least one millisecond before reaching the fade interpolation, so the
interpolation's denominator is never zero; and a fade whose duration is
`≤ 0` degenerates to an immediate snap to the target (the `done` check
fires at every query, which returns the exact target and clears the
fade). -/
theorem C7_duration_floor (initial : ℚ) (i o : ℕ) (f : Fader) (fd : Fade) (now : ℚ) :
    (1 ≤ (main_fader initial i o).fade_in ∧ 1 ≤ (main_fader initial i o).fade_out) ∧
    (f.fade = some fd → fd.duration ≤ 0 →
      (f.value now).1 = fd.target ∧ (f.value now).2.fade = none) := by
  constructor
  · constructor
    · show (1 : ℚ) ≤ ((max i 1 : ℕ) : ℚ)
      exact_mod_cast le_max_right i 1
    · show (1 : ℚ) ≤ ((max o 1 : ℕ) : ℚ)
      exact_mod_cast le_max_right o 1
  · intro hf hdur
    have hd : fd.done now = true := by
      unfold Fade.done
      apply decide_eq_true
      exact le_trans hdur (le_max_left 0 _)
    unfold Fader.value
    rw [hf]
    simp [hd]

/-- Shared: `raw_to_f32` is plain division when `raw ≤ max_raw > 0`. -/
lemma raw_to_f32_of_le (b : Backlight) (r : ℕ) (hmax : 0 < b.max_raw) (hr : r ≤ b.max_raw) :
    b.raw_to_f32 r = (r : ℚ) / (b.max_raw : ℚ) := by
  unfold Backlight.raw_to_f32
  rw [if_neg (by omega)]
  have hM : (0 : ℚ) < (b.max_raw : ℚ) := by exact_mod_cast hmax
  apply clamp01_of_mem
  · positivity
  · rw [div_le_one hM]
    exact_mod_cast hr

/-- C8: for every `BrightnessRange` with `max_raw > 0` and every
normalized `v ∈ [0,1]`, `to_raw(to_normalized(to_raw(v))) = to_raw(v)`
exactly. -/
theorem C8_roundtrip (b : Backlight) (v : ℚ) (hmax : 0 < b.max_raw)
    (_h0 : 0 ≤ v) (_h1 : v ≤ 1) :
    b.f32_to_raw (b.raw_to_f32 (b.f32_to_raw v)) = b.f32_to_raw v := by
  have hM : (0 : ℚ) < (b.max_raw : ℚ) := by exact_mod_cast hmax
  set r := b.f32_to_raw v with hr
  have hrle : r ≤ b.max_raw := f32_to_raw_le b v
  rw [raw_to_f32_of_le b r hmax hrle]
  unfold Backlight.f32_to_raw
  have hmem : clamp01 ((r : ℚ) / (b.max_raw : ℚ)) = (r : ℚ) / (b.max_raw : ℚ) := by
    apply clamp01_of_mem
    · positivity
    · rw [div_le_one hM]
      exact_mod_cast hrle
  rw [hmem, div_mul_cancel₀ _ (ne_of_gt hM)]
  have : ⌊(r : ℚ) + 1 / 2⌋ = (r : ℤ) := by
    rw [Int.floor_eq_iff]
    constructor
    · push_cast
      linarith
    · push_cast
      linarith
  rw [this]
  exact Int.toNat_natCast r

/-- Witness for C1: the snap branch at a concrete fader. -/
theorem C1_witness :
    |clamp01 (1/2) - (Fader.value (Fader.new (1/2) 250 800) 0).1| < 1 / 10000 ∧
    ((Fader.new (1/2) 250 800).set_target 0 (1/2)).fade = none ∧
    ((Fader.new (1/2) 250 800).set_target 0 (1/2)).current = clamp01 (1/2) := by
  have h : |clamp01 (1/2) - (Fader.value (Fader.new (1/2) 250 800) 0).1| < 1 / 10000 := by
    norm_num [Fader.new, Fader.value, clamp01]
  exact ⟨h, (C1_set_target_spec (Fader.new (1/2) 250 800) 0 (1/2)).1 h⟩

/-- Witness for C2 on the fade `0 → 1` over `[0,10]`. -/
theorem C2_witness :
    (Fader.value
      { current := 0, fade := some { start := 0, target := 1, start_at := 0, duration := 10 },
        fade_in := 250, fade_out := 800 } 0).1 = 0 ∧
    (Fader.value
      { current := 0, fade := some { start := 0, target := 1, start_at := 0, duration := 10 },
        fade_in := 250, fade_out := 800 } 10).1 = 1 ∧
    (Fader.value
      { current := 0, fade := some { start := 0, target := 1, start_at := 0, duration := 10 },
        fade_in := 250, fade_out := 800 } 10).2.fade = none := by
  have h := C2_fade_endpoints_monotone
    { current := 0, fade := some { start := 0, target := 1, start_at := 0, duration := 10 },
      fade_in := 250, fade_out := 800 }
    { start := 0, target := 1, start_at := 0, duration := 10 }
    rfl (by norm_num) (by norm_num) (by norm_num) (by norm_num) (by norm_num)
  exact ⟨h.1, (h.2.1 10 (by norm_num)).1, (h.2.1 10 (by norm_num)).2⟩

/-- Witness for C7 at zero configured durations and a zero-duration fade. -/
theorem C7_witness :
    (1 ≤ (main_fader (1/2) 0 0).fade_in ∧ 1 ≤ (main_fader (1/2) 0 0).fade_out) ∧
    ((Fader.value
        { current := 0, fade := some { start := 0, target := 1, start_at := 0, duration := 0 },
          fade_in := 250, fade_out := 800 } 0).1 = 1 ∧
      (Fader.value
        { current := 0, fade := some { start := 0, target := 1, start_at := 0, duration := 0 },
          fade_in := 250, fade_out := 800 } 0).2.fade = none) :=
  ⟨(C7_duration_floor (1/2) 0 0
      { current := 0, fade := some { start := 0, target := 1, start_at := 0, duration := 0 },
        fade_in := 250, fade_out := 800 }
      { start := 0, target := 1, start_at := 0, duration := 0 } 0).1,
    (C7_duration_floor (1/2) 0 0
      { current := 0, fade := some { start := 0, target := 1, start_at := 0, duration := 0 },
        fade_in := 250, fade_out := 800 }
      { start := 0, target := 1, start_at := 0, duration := 0 } 0).2 rfl le_rfl⟩

/-- Witness for C8 at `max_raw = 255`, `v = 1/3`. -/
theorem C8_witness :
    (0 < 255) ∧ ((0 : ℚ) ≤ 1/3) ∧ ((1/3 : ℚ) ≤ 1) ∧
    Backlight.f32_to_raw { max_raw := 255, last_raw_written := none }
        (Backlight.raw_to_f32 { max_raw := 255, last_raw_written := none }
          (Backlight.f32_to_raw { max_raw := 255, last_raw_written := none } (1/3)))
      = Backlight.f32_to_raw { max_raw := 255, last_raw_written := none } (1/3) :=
  ⟨by norm_num, by norm_num, by norm_num,
    C8_roundtrip { max_raw := 255, last_raw_written := none } (1/3) (by norm_num)
      (by norm_num) (by norm_num)⟩
